import Mathlib

/-!
Verification of the face-detection proctoring pipeline.

Shallow embedding of the repository's core modules:

* `rotationEstimator.js` — head-rotation estimation from 478 facial landmarks;
* `gazeEstimator.js` — eye-gaze estimation (horizontal + vertical) from landmarks;
* `flagManager.js` — the stateful flag aggregator (`processAnalysis`);
* `frameProcessor.js` (bundled in `hooks/useWebcam.js`) — the throttled frame
  scheduler with the consecutive-overrun breaker.

Numbers are modelled by `ℚ` (the source computes with JS doubles; every claim
under consideration is about exact threshold comparisons, for which the
rational/real idealization is the intended semantics).  A JS landmark array is
a `List (Option Pt)`: `none` models `undefined`/a missing landmark, and an
out-of-range index reads as `none`, exactly as a JS indexing miss yields
`undefined`.  The source's `Math.sqrt`-based `distance` is carried as its
square (`distanceSq`): `Math.sqrt` is strictly monotone on `[0, ∞)`, so
`distance = 0 ↔ distanceSq = 0` and every threshold comparison of distances or
of ratios of distances translates to the corresponding comparison of squares;
the bridge back to real square roots is proved where a claim mentions the
ratio itself.
-/

/-- A 2-D landmark point with normalized coordinates (`{x, y}` in the source). -/
structure Pt where
  x : ℚ
  y : ℚ
deriving DecidableEq, Repr

/-- A JS landmark array: element `none` models `undefined`. -/
abbrev Landmarks := List (Option Pt)

/-- JS indexing `landmarks[i]`: the element when in range, `undefined` (`none`)
otherwise. -/
def lmGet (lms : Landmarks) (i : Nat) : Option Pt :=
  lms.getD i none

/-- Square of the source's `distance(p1, p2)`:
`Math.sqrt(dx*dx + dy*dy)` with a `0` guard when either point is missing
(`if (!p1 || !p2) return 0`).  We store the square; see the header comment. -/
def distanceSq (p1 p2 : Option Pt) : ℚ :=
  match p1, p2 with
  | some p1, some p2 => (p1.x - p2.x) ^ 2 + (p1.y - p2.y) ^ 2
  | _, _ => 0

/-- `estimateYaw` from `rotationEstimator.js`.
Landmarks: nose tip 1, left ear 454, right ear 234.  The source computes
`ratio = rightEarDist / leftEarDist` and classifies
`ratio < 0.6 → LEFT`, `ratio > 1/0.6 → RIGHT`, else `CENTER`, after returning
`CENTER` on a missing landmark or a zero distance.  In squared form
(`ratio ≥ 0` throughout): `ratio < 3/5 ↔ rightSq/leftSq < 9/25` and
`ratio > 5/3 ↔ rightSq/leftSq > 25/9`. -/
def estimateYaw (lms : Landmarks) : String :=
  match lmGet lms 1, lmGet lms 454, lmGet lms 234 with
  | some nose, some leftEar, some rightEar =>
    let leftSq := distanceSq (some nose) (some leftEar)
    let rightSq := distanceSq (some nose) (some rightEar)
    if leftSq = 0 ∨ rightSq = 0 then "CENTER"
    else if rightSq / leftSq < 9 / 25 then "LEFT"
    else if 25 / 9 < rightSq / leftSq then "RIGHT"
    else "CENTER"
  | _, _, _ => "CENTER"

/-- `estimateRoll` from `rotationEstimator.js`.
Landmarks: left eye outer 263, right eye outer 33.  The source computes
`heightDiff = (leftEye.y - rightEye.y) / eyeDistance` and classifies
`heightDiff > 0.15 → TILTED_RIGHT`, `heightDiff < -0.15 → TILTED_LEFT`,
else `LEVEL`, with `LEVEL` on a missing landmark or zero eye distance.
In squared form (for `eyeDistance > 0`):
`diff / eyeDistance > 3/20 ↔ 0 < diff ∧ diff² · 400 > 9 · eyeDistSq`. -/
def estimateRoll (lms : Landmarks) : String :=
  match lmGet lms 263, lmGet lms 33 with
  | some leftEye, some rightEye =>
    let eyeDistSq := distanceSq (some leftEye) (some rightEye)
    if eyeDistSq = 0 then "LEVEL"
    else
      let diff := leftEye.y - rightEye.y
      if 0 < diff ∧ 9 * eyeDistSq < diff ^ 2 * 400 then "TILTED_RIGHT"
      else if diff < 0 ∧ 9 * eyeDistSq < diff ^ 2 * 400 then "TILTED_LEFT"
      else "LEVEL"
  | _, _ => "LEVEL"

/-- Result record of `analyzeRotation`. -/
structure RotationResult where
  yaw : String
  roll : String
  isRotated : Bool
deriving DecidableEq, Repr

/-- `analyzeRotation(landmarks)` from `rotationEstimator.js`.  The argument is
`Option Landmarks` so that JS `null`/`undefined` input (`!landmarks`) is
representable; an empty or short array takes the same all-UNKNOWN early
return (`landmarks.length < 478`). -/
def analyzeRotation (landmarks : Option Landmarks) : RotationResult :=
  match landmarks with
  | none => ⟨"UNKNOWN", "UNKNOWN", false⟩
  | some lms =>
    if lms.length < 478 then ⟨"UNKNOWN", "UNKNOWN", false⟩
    else
      let yaw := estimateYaw lms
      ⟨yaw, estimateRoll lms, yaw != "CENTER"⟩

/-- `getNormalizedOffset(irisPos, minPos, maxPos)` from `gazeEstimator.js`:
normalized offset of the iris from the center of `[minPos, maxPos]`, clamped
to `[-1, 1]`, `0` when the range is below `0.001`. -/
def getNormalizedOffset (irisPos minPos maxPos : ℚ) : ℚ :=
  let center := (minPos + maxPos) / 2
  let range := |maxPos - minPos|
  if range < 1 / 1000 then 0
  else max (-1) (min 1 ((irisPos - center) / range * 2))

/-- `getHorizontalOffset(iris, inner, outer)` from `gazeEstimator.js`:
`0` when any landmark is missing. -/
def getHorizontalOffset (iris inner outer : Option Pt) : ℚ :=
  match iris, inner, outer with
  | some iris, some inner, some outer =>
    getNormalizedOffset iris.x (min inner.x outer.x) (max inner.x outer.x)
  | _, _, _ => 0

/-- `getVerticalOffset(iris, top, bottom, eyeWidth)` from `gazeEstimator.js`:
returns `(offset, valid)`.  Missing landmarks give `(0, false)`; an eye whose
opening height is below `0.02` of its width (`eyeWidth > 0 &&
eyeHeight / eyeWidth < MIN_EYE_HEIGHT_RATIO`) gives `(0, false)`. -/
def getVerticalOffset (iris top bottom : Option Pt) (eyeWidth : ℚ) :
    ℚ × Bool :=
  match iris, top, bottom with
  | some iris, some top, some bottom =>
    let eyeHeight := |bottom.y - top.y|
    if 0 < eyeWidth ∧ eyeHeight / eyeWidth < 1 / 50 then (0, false)
    else
      (getNormalizedOffset iris.y (min top.y bottom.y) (max top.y bottom.y),
        true)
  | _, _, _ => (0, false)

/-- JS `p?.x || 0` on an optional landmark. -/
def jsX (p : Option Pt) : ℚ :=
  (p.map Pt.x).getD 0

/-- `rightEyeWidth` in `analyzeGaze`: `Math.abs((rightOuter?.x || 0) -
(rightInner?.x || 0))`, landmarks 33 (outer) and 133 (inner). -/
def rightEyeWidth (lms : Landmarks) : ℚ :=
  |jsX (lmGet lms 33) - jsX (lmGet lms 133)|

/-- `leftEyeWidth` in `analyzeGaze`: landmarks 263 (outer) and 362 (inner). -/
def leftEyeWidth (lms : Landmarks) : ℚ :=
  |jsX (lmGet lms 263) - jsX (lmGet lms 362)|

/-- `rightVertResult` in `analyzeGaze`: right iris 468, upper eyelid 27,
lower eyelid 23. -/
def rightVert (lms : Landmarks) : ℚ × Bool :=
  getVerticalOffset (lmGet lms 468) (lmGet lms 27) (lmGet lms 23)
    (rightEyeWidth lms)

/-- `leftVertResult` in `analyzeGaze`: left iris 473, upper eyelid 257,
lower eyelid 253. -/
def leftVert (lms : Landmarks) : ℚ × Bool :=
  getVerticalOffset (lmGet lms 473) (lmGet lms 257) (lmGet lms 253)
    (leftEyeWidth lms)

/-- `avgHorizontal` in `analyzeGaze`: mean of the two per-eye horizontal
offsets (right eye: iris 468 between corners 133/33; left eye: iris 473
between corners 362/263). -/
def avgHorizontalOf (lms : Landmarks) : ℚ :=
  (getHorizontalOffset (lmGet lms 468) (lmGet lms 133) (lmGet lms 33) +
    getHorizontalOffset (lmGet lms 473) (lmGet lms 362) (lmGet lms 263)) / 2

/-- `verticalValid` in `analyzeGaze`: both eyes produced a valid vertical
reading. -/
def verticalValidOf (lms : Landmarks) : Bool :=
  (rightVert lms).2 && (leftVert lms).2

/-- `avgVertical` in `analyzeGaze`: mean of the per-eye vertical offsets when
both are valid, `0` otherwise. -/
def avgVerticalOf (lms : Landmarks) : ℚ :=
  if verticalValidOf lms then ((rightVert lms).1 + (leftVert lms).1) / 2
  else 0

/-- `horizontalGaze` in `analyzeGaze`: `avgHorizontal < -0.15 → LEFT`,
`avgHorizontal > 0.15 → RIGHT`, else `CENTER`. -/
def horizontalGazeOf (lms : Landmarks) : String :=
  if avgHorizontalOf lms < -(3 / 20) then "LEFT"
  else if 3 / 20 < avgHorizontalOf lms then "RIGHT"
  else "CENTER"

/-- `verticalGaze` in `analyzeGaze`: only computed when `verticalValid`;
`avgVertical < -0.25 → UP`, `avgVertical > 0.25 → DOWN`, else `CENTER`. -/
def verticalGazeOf (lms : Landmarks) : String :=
  if verticalValidOf lms then
    if avgVerticalOf lms < -(1 / 4) then "UP"
    else if 1 / 4 < avgVerticalOf lms then "DOWN"
    else "CENTER"
  else "CENTER"

/-- `gazeDirection` in `analyzeGaze`: the non-center vertical label then the
non-center horizontal label joined with `_` (`directions.join('_')`), or
`CENTER` when both are center. -/
def gazeDirectionOf (lms : Landmarks) : String :=
  let directions :=
    (if verticalGazeOf lms ≠ "CENTER" then [verticalGazeOf lms] else []) ++
      (if horizontalGazeOf lms ≠ "CENTER" then [horizontalGazeOf lms] else [])
  if directions = [] then "CENTER" else String.intercalate "_" directions

/-- Result record of `analyzeGaze`.  The source additionally returns a
`details` record of `toFixed(3)`-formatted debug strings (and logs it); no
claim concerns it and it is omitted here. -/
structure GazeResult where
  horizontalGaze : String
  verticalGaze : String
  gazeDirection : String
  isLookingAway : Bool
  confidence : ℚ
deriving DecidableEq, Repr

/-- `analyzeGaze(landmarks)` from `gazeEstimator.js`.  As with
`analyzeRotation`, `none` input models JS `null`/`undefined`
(`!landmarks`), and short arrays take the all-UNKNOWN early return. -/
def analyzeGaze (landmarks : Option Landmarks) : GazeResult :=
  match landmarks with
  | none => ⟨"UNKNOWN", "UNKNOWN", "UNKNOWN", false, 0⟩
  | some lms =>
    if lms.length < 478 then ⟨"UNKNOWN", "UNKNOWN", "UNKNOWN", false, 0⟩
    else
      let rightHorizontal :=
        getHorizontalOffset (lmGet lms 468) (lmGet lms 133) (lmGet lms 33)
      let leftHorizontal :=
        getHorizontalOffset (lmGet lms 473) (lmGet lms 362) (lmGet lms 263)
      let hDiff := |rightHorizontal - leftHorizontal|
      let vDiff :=
        if verticalValidOf lms then |(rightVert lms).1 - (leftVert lms).1|
        else 0
      { horizontalGaze := horizontalGazeOf lms
        verticalGaze := verticalGazeOf lms
        gazeDirection := gazeDirectionOf lms
        isLookingAway :=
          horizontalGazeOf lms != "CENTER" || verticalGazeOf lms != "CENTER"
        confidence := max 0 (1 - (hDiff + vDiff)) }

/-! ## Flag aggregator (`flagManager.js`, landmark-pipeline variant) -/

/-- `FACE_MISSING_THRESHOLD` from `flagManager.js`. -/
def FACE_MISSING_THRESHOLD : Nat := 3

/-- `LOW_LIGHT_THRESHOLD` from `flagManager.js` (0–255 brightness scale). -/
def LOW_LIGHT_THRESHOLD : ℚ := 50

/-- The analysis record consumed by `processAnalysis` (the fields it
destructures).  `gazeDirection` is `Option String` (`none` = JS
`null`/`undefined`). -/
structure Analysis where
  faceCount : Nat
  isRotated : Bool
  isLookingAway : Bool
  gazeDirection : Option String
  brightness : ℚ
deriving DecidableEq, Repr

/-- The `details` sub-record of a history entry; `brightness` is
`Math.round`-ed. -/
structure Details where
  faceCount : Nat
  isRotated : Bool
  isLookingAway : Bool
  gazeDirection : Option String
  brightness : ℤ
deriving DecidableEq, Repr

/-- One timestamped history entry. -/
structure HistoryEntry where
  timestamp : ℚ
  flags : List String
  details : Details
deriving DecidableEq, Repr

/-- The aggregator's state (`createInitialState` shape). -/
structure FlagState where
  currentFlags : List String
  gazeDirection : Option String
  consecutiveMissing : Nat
  lastUpdate : Option ℚ
  history : List HistoryEntry
deriving DecidableEq, Repr

/-- `createInitialState()` from `flagManager.js`. -/
def createInitialState : FlagState :=
  ⟨[], none, 0, none, []⟩

/-- `Math.round(x)` on a rational: floor of `x + 1/2`. -/
def jsRound (q : ℚ) : ℤ :=
  ⌊q + 1 / 2⌋

/-- JS `gazeDirection || null`: the empty string is falsy and becomes
`null`. -/
def jsOrNull (g : Option String) : Option String :=
  match g with
  | some s => if s = "" then none else some s
  | none => none

/-- The classification part of `processAnalysis`: the new flag list, the new
`consecutiveMissing` counter and the new displayed gaze direction
(`currentGazeDirection`), exactly following the source's branch order:
`faceCount > 1` → `MULTIPLE_FACES` (counter reset); `faceCount === 0` →
counter incremented, `FACE_MISSING` only at the threshold; single face →
counter reset and exactly one of `FACE_ROTATED` / `GAZE_AWAY` (carrying the
gaze direction) / `FACE_OK`; independently, `brightness < 50` appends
`LOW_LIGHT`. -/
def computeFlags (state : FlagState) (analysis : Analysis) :
    List String × Nat × Option String :=
  let base : List String × Nat × Option String :=
    if 1 < analysis.faceCount then (["MULTIPLE_FACES"], 0, none)
    else if analysis.faceCount = 0 then
      if FACE_MISSING_THRESHOLD ≤ state.consecutiveMissing + 1 then
        (["FACE_MISSING"], state.consecutiveMissing + 1, none)
      else ([], state.consecutiveMissing + 1, none)
    else if analysis.isRotated then (["FACE_ROTATED"], 0, none)
    else if analysis.isLookingAway then (["GAZE_AWAY"], 0, analysis.gazeDirection)
    else (["FACE_OK"], 0, none)
  (base.1 ++ (if analysis.brightness < LOW_LIGHT_THRESHOLD then ["LOW_LIGHT"] else []),
    base.2)

/-- `arraysEqual(a, b)` from `flagManager.js`: equal lengths and equal
contents after sorting (JS sorts the flag-name strings lexicographically;
any strict total order yields the same equality test, namely multiset
equality). -/
def arraysEqual (a b : List String) : Bool :=
  a.length == b.length &&
    decide (List.insertionSort (· ≤ ·) a = List.insertionSort (· ≤ ·) b)

/-- The history `details` record built by `processAnalysis`
(`gazeDirection: gazeDirection || null`, `brightness: Math.round(brightness)`). -/
def mkDetails (analysis : Analysis) : Details :=
  ⟨analysis.faceCount, analysis.isRotated, analysis.isLookingAway,
    jsOrNull analysis.gazeDirection, jsRound analysis.brightness⟩

/-- `processAnalysis(state, analysis)` from `flagManager.js`
(landmark-pipeline variant).  `Date.now()` is passed in as `now`.  History is
appended only when the flag set changed as computed by `arraysEqual`, or the
displayed gaze direction changed while `isLookingAway`; the retained prefix is
`state.history.slice(-19)` (the most recent 19 entries), so history is capped
at 20 with the oldest entries evicted first. -/
def processAnalysis (now : ℚ) (state : FlagState) (analysis : Analysis) :
    FlagState :=
  let newFlags := (computeFlags state analysis).1
  let consecutiveMissing := (computeFlags state analysis).2.1
  let currentGazeDirection := (computeFlags state analysis).2.2
  let flagsChanged :=
    !arraysEqual state.currentFlags newFlags ||
      (analysis.isLookingAway &&
        decide (state.gazeDirection ≠ currentGazeDirection))
  let history :=
    if flagsChanged then
      state.history.drop (state.history.length - 19) ++
        [⟨now, newFlags, mkDetails analysis⟩]
    else state.history
  ⟨newFlags, currentGazeDirection, consecutiveMissing, some now, history⟩

/-- Folding a sample sequence through `processAnalysis` (one call per
scheduler cycle), with a fixed timestamp — no claim depends on the clock. -/
def runAnalyses (now : ℚ) (state : FlagState) (samples : List Analysis) :
    FlagState :=
  samples.foldl (processAnalysis now) state

/-! ## Frame scheduler (`frameProcessor.js`, bundled in `hooks/useWebcam.js`) -/

/-- `MAX_PROCESSING_MS` — the 200 ms per-cycle budget. -/
def MAX_PROCESSING_MS : ℚ := 200

/-- `MAX_CONSECUTIVE_OVERRUNS` — the breaker threshold. -/
def MAX_CONSECUTIVE_OVERRUNS : Nat := 3

/-- The sample carried by an analysis event.  `processFrame` reports exactly
`{ faceCount, brightness, processingTime }`. -/
structure Sample where
  faceCount : Nat
  brightness : ℚ
  processingTime : ℚ
deriving DecidableEq, Repr

/-- The scheduler's closed-over state: `intervalId !== null`, `isProcessing`,
`consecutiveOverruns`, `isDisabled`. -/
structure ProcState where
  intervalRunning : Bool
  isProcessing : Bool
  consecutiveOverruns : Nat
  isDisabled : Bool
deriving DecidableEq, Repr

/-- The three callback events a cycle can emit (`onAnalysis`, `onDisabled`,
`onError`). -/
inductive Event where
  | analysis (s : Sample)
  | disabled (reason : String)
  | error (cause : String)
deriving DecidableEq, Repr

/-- Result of the detector adapter (`faceAnalyzer.js`, FaceLandmarker
variant): per-face landmark arrays plus a count. -/
structure Detection where
  faces : List Landmarks
  count : Nat
deriving DecidableEq, Repr

/-- `detectFaces` result construction: `faces = result.faceLandmarks || []`,
`count = result.faceLandmarks?.length || 0` — so `count` is always the length
of `faces`. -/
def detectFacesResult (raw : Option (List Landmarks)) : Detection :=
  ⟨raw.getD [], (raw.getD []).length⟩

/-- Per-sample luma in `calculateBrightness`:
`0.299*data[i] + 0.587*data[i+1] + 0.114*data[i+2]`. -/
def sampleLuma (data : List ℚ) (i : Nat) : ℚ :=
  299 / 1000 * data.getD i 0 + 587 / 1000 * data.getD (i + 1) 0 +
    114 / 1000 * data.getD (i + 2) 0

/-- The sampled indices of the brightness loop
(`for (i = 0; i < data.length; i += 4 * 10)`): `0, 40, 80, …` below the
buffer length, i.e. `⌈length / 40⌉` samples. -/
def sampleIndices (len : Nat) : List Nat :=
  List.range' 0 ((len + 39) / 40) 40

/-- `calculateBrightness(ctx)` from `frameProcessor.js`, as a function of the
RGBA byte buffer (`imageData.data`, a flat list; a well-formed buffer has
length `4·w·h`): average luma over every 10th pixel, `0` when nothing was
sampled. -/
def calculateBrightness (data : List ℚ) : ℚ :=
  let idxs := sampleIndices data.length
  let total := (idxs.map (sampleLuma data)).sum
  if 0 < idxs.length then total / idxs.length else 0

/-- The outcome of the fallible part of a cycle: the detector adapter's raw
`faceLandmarks` on success, or the thrown cause when frame capture or
detection raised. -/
inductive DetectOutcome where
  | ok (raw : Option (List Landmarks))
  | err (cause : String)
deriving DecidableEq, Repr

/-- One completed run of `processFrame` from `frameProcessor.js`, as an atomic
step: `ready` is `videoElement && videoElement.readyState >= 2`; `data` is the
captured frame's pixel buffer; `elapsed` is the measured
`performance.now() - startTime`.  Returns the new closed-over state and the
events emitted during the call.  Faithful control flow: skip when processing
or disabled, skip when not ready; on a throw, emit only the error event (the
`finally` clears `isProcessing`); on an overrun, increment the counter and —
at the third consecutive overrun — `disable(...)` (set `isDisabled`, clear the
interval timer, emit the disabled event) and return without an analysis
event; otherwise emit the analysis event (the counter resets to 0 only on an
on-budget cycle). -/
def processFrame (st : ProcState) (ready : Bool) (outcome : DetectOutcome)
    (data : List ℚ) (elapsed : ℚ) : ProcState × List Event :=
  if st.isProcessing || st.isDisabled then (st, [])
  else if !ready then (st, [])
  else
    match outcome with
    | .err cause => ({ st with isProcessing := false }, [Event.error cause])
    | .ok raw =>
      let faceDetection := detectFacesResult raw
      let brightness := calculateBrightness data
      let processingTime := elapsed
      if MAX_PROCESSING_MS < processingTime then
        let k := st.consecutiveOverruns + 1
        if MAX_CONSECUTIVE_OVERRUNS ≤ k then
          ({ st with
              intervalRunning := false
              isProcessing := false
              consecutiveOverruns := k
              isDisabled := true },
            [Event.disabled "Processing time exceeded budget"])
        else
          ({ st with consecutiveOverruns := k, isProcessing := false },
            [Event.analysis ⟨faceDetection.count, brightness, processingTime⟩])
      else
        ({ st with consecutiveOverruns := 0, isProcessing := false },
          [Event.analysis ⟨faceDetection.count, brightness, processingTime⟩])

/-- `start()` from `frameProcessor.js`: no-op when the interval timer is
already set; otherwise clear the disabled flag and the overrun counter and
begin ticking. -/
def schedStart (st : ProcState) : ProcState :=
  if st.intervalRunning then st
  else { st with
      isDisabled := false
      consecutiveOverruns := 0
      intervalRunning := true }

/-- `stop()` from `frameProcessor.js`: clear the interval timer. -/
def schedStop (st : ProcState) : ProcState :=
  { st with intervalRunning := false }

/-! ## Concrete inputs used by witnesses and counterexamples -/

/-- Index table of a full landmark array for a face turned left: nose at
the origin (index 1), right ear (234) at distance 1, left ear (454) at
distance 10 — ear-distance ratio `1/10 < 0.6`; every other index holds
`(0, 0)`. -/
def rotFn (i : Fin 478) : Option Pt :=
  if i.val = 234 then some ⟨1, 0⟩
  else if i.val = 454 then some ⟨10, 0⟩
  else some ⟨0, 0⟩

def rotLms : Landmarks := List.ofFn rotFn

/-- Index table for a straight face: ear distances 3 and 5 from the nose,
ratio `3/5` exactly — the strict `<` threshold classifies CENTER. -/
def straightFn (i : Fin 478) : Option Pt :=
  if i.val = 234 then some ⟨3, 0⟩
  else if i.val = 454 then some ⟨5, 0⟩
  else some ⟨0, 0⟩

def straightLms : Landmarks := List.ofFn straightFn

/-- Index table for the spec's example: right-ear distance 40 and left-ear
distance 100 from the nose, ratio `0.4`. -/
def exampleFn (i : Fin 478) : Option Pt :=
  if i.val = 234 then some ⟨0, 40⟩
  else if i.val = 454 then some ⟨0, 100⟩
  else some ⟨0, 0⟩

def exampleLms : Landmarks := List.ofFn exampleFn

/-- Index table for a full landmark array gazing down-left: both eyes
identical, width `1/5`, opening height `1/10` (ratio `1/2 ≥ 0.02`), iris
offset `-0.8` horizontally and `0.8` vertically. -/
def gazeFn (i : Fin 478) : Option Pt :=
  if i.val = 33 ∨ i.val = 263 then some ⟨2/5, 1/2⟩
  else if i.val = 133 ∨ i.val = 362 then some ⟨3/5, 1/2⟩
  else if i.val = 27 ∨ i.val = 257 then some ⟨1/2, 9/20⟩
  else if i.val = 23 ∨ i.val = 253 then some ⟨1/2, 11/20⟩
  else if i.val = 468 ∨ i.val = 473 then some ⟨21/50, 27/50⟩
  else some ⟨0, 0⟩

def gazeLms : Landmarks := List.ofFn gazeFn

/-- A sample with the given face count, a straight on-screen gaze and
adequate brightness. -/
def mkA (fc : Nat) : Analysis := ⟨fc, false, false, none, 100⟩

/-- A running, idle, never-overrun scheduler state. -/
def procSt0 : ProcState := ⟨true, false, 0, false⟩

/-- The five mutually exclusive status flags (everything but `LOW_LIGHT`). -/
def statusFlags : List String :=
  ["MULTIPLE_FACES", "FACE_MISSING", "FACE_ROTATED", "GAZE_AWAY", "FACE_OK"]

/-! ## Supporting lemmas -/

/-- `distanceSq` is a sum of squares, hence nonnegative. -/
theorem distanceSq_nonneg (p1 p2 : Option Pt) : 0 ≤ distanceSq p1 p2 := by
  match p1, p2 with
  | some p1, some p2 =>
    have := sq_nonneg (p1.x - p2.x)
    have := sq_nonneg (p1.y - p2.y)
    simp only [distanceSq]
    linarith
  | none, _ => simp [distanceSq]
  | some _, none => simp [distanceSq]

/-- Reading an index below 478 from a function-built landmark array yields
the function's value there. -/
theorem lmGet_ofFn (f : Fin 478 → Option Pt) (i : Nat) (h : i < 478) :
    lmGet (List.ofFn f) i = f ⟨i, h⟩ := by
  rw [lmGet, List.getD_eq_getElem?_getD, List.getElem?_ofFn]
  simp only [List.ofFnNthVal, h, dif_pos]
  rfl

/-- A function-built landmark array has length 478. -/
theorem length_ofFn_478 (f : Fin 478 → Option Pt) :
    (List.ofFn f : Landmarks).length = 478 :=
  List.length_ofFn f

/-- The rotated example face classifies LEFT (ear-distance ratio `1/10`),
hence `isRotated`. -/
theorem analyzeRotation_rotLms :
    analyzeRotation (some rotLms) = ⟨"LEFT", "LEVEL", true⟩ := by
  have h1 : lmGet rotLms 1 = some ⟨0, 0⟩ := by
    rw [rotLms, lmGet_ofFn rotFn 1 (by norm_num)]; rfl
  have h454 : lmGet rotLms 454 = some ⟨10, 0⟩ := by
    rw [rotLms, lmGet_ofFn rotFn 454 (by norm_num)]; rfl
  have h234 : lmGet rotLms 234 = some ⟨1, 0⟩ := by
    rw [rotLms, lmGet_ofFn rotFn 234 (by norm_num)]; rfl
  have h263 : lmGet rotLms 263 = some ⟨0, 0⟩ := by
    rw [rotLms, lmGet_ofFn rotFn 263 (by norm_num)]; rfl
  have h33 : lmGet rotLms 33 = some ⟨0, 0⟩ := by
    rw [rotLms, lmGet_ofFn rotFn 33 (by norm_num)]; rfl
  have hlen : ¬(rotLms.length < 478) := by
    rw [rotLms, length_ofFn_478]; omega
  rw [analyzeRotation]
  rw [if_neg hlen]
  rw [estimateYaw, estimateRoll, h1, h454, h234, h263, h33]
  norm_num [distanceSq]
  decide

/-- The straight example face classifies CENTER: ratio exactly `3/5` and the
threshold comparison is strict. -/
theorem analyzeRotation_straightLms :
    analyzeRotation (some straightLms) = ⟨"CENTER", "LEVEL", false⟩ := by
  have h1 : lmGet straightLms 1 = some ⟨0, 0⟩ := by
    rw [straightLms, lmGet_ofFn straightFn 1 (by norm_num)]; rfl
  have h454 : lmGet straightLms 454 = some ⟨5, 0⟩ := by
    rw [straightLms, lmGet_ofFn straightFn 454 (by norm_num)]; rfl
  have h234 : lmGet straightLms 234 = some ⟨3, 0⟩ := by
    rw [straightLms, lmGet_ofFn straightFn 234 (by norm_num)]; rfl
  have h263 : lmGet straightLms 263 = some ⟨0, 0⟩ := by
    rw [straightLms, lmGet_ofFn straightFn 263 (by norm_num)]; rfl
  have h33 : lmGet straightLms 33 = some ⟨0, 0⟩ := by
    rw [straightLms, lmGet_ofFn straightFn 33 (by norm_num)]; rfl
  have hlen : ¬(straightLms.length < 478) := by
    rw [straightLms, length_ofFn_478]; omega
  rw [analyzeRotation]
  rw [if_neg hlen]
  rw [estimateYaw, estimateRoll, h1, h454, h234, h263, h33]
  norm_num [distanceSq]

/-- Two lists that are permutations of one another pass the source's
`arraysEqual` test: sorting is invariant under permutation. -/
theorem arraysEqual_of_perm {a b : List String} (h : a.Perm b) :
    arraysEqual a b = true := by
  have hsort : List.insertionSort (· ≤ ·) a = List.insertionSort (· ≤ ·) b :=
    List.eq_of_perm_of_sorted
      (((List.perm_insertionSort _ a).trans h).trans
        (List.perm_insertionSort _ b).symm)
      (List.sorted_insertionSort _ a) (List.sorted_insertionSort _ b)
  unfold arraysEqual
  rw [h.length_eq, hsort]
  simp

/-- Unfolded shape of the flag list `processAnalysis` computes: one status
flag (or none, for an undebounced dropout) followed by an optional
`LOW_LIGHT`. -/
theorem computeFlags_fst (st : FlagState) (a : Analysis) :
    (computeFlags st a).1 =
      (if 1 < a.faceCount then ["MULTIPLE_FACES"]
        else if a.faceCount = 0 then
          if 3 ≤ st.consecutiveMissing + 1 then ["FACE_MISSING"] else []
        else if a.isRotated then ["FACE_ROTATED"]
        else if a.isLookingAway then ["GAZE_AWAY"]
        else ["FACE_OK"]) ++
        (if a.brightness < 50 then ["LOW_LIGHT"] else []) := by
  simp only [computeFlags, FACE_MISSING_THRESHOLD, LOW_LIGHT_THRESHOLD]
  split_ifs <;> rfl

/-- The counter `processAnalysis` returns, in unfolded form. -/
theorem computeFlags_cm (st : FlagState) (a : Analysis) :
    (computeFlags st a).2.1 =
      if a.faceCount = 0 ∧ ¬1 < a.faceCount then st.consecutiveMissing + 1
      else 0 := by
  simp only [computeFlags, FACE_MISSING_THRESHOLD]
  split_ifs <;> simp_all

/-- Projections of `processAnalysis` (definitional). -/
theorem processAnalysis_currentFlags (now : ℚ) (st : FlagState)
    (a : Analysis) :
    (processAnalysis now st a).currentFlags = (computeFlags st a).1 := rfl

theorem processAnalysis_cm (now : ℚ) (st : FlagState) (a : Analysis) :
    (processAnalysis now st a).consecutiveMissing =
      (computeFlags st a).2.1 := rfl

theorem processAnalysis_gaze (now : ℚ) (st : FlagState) (a : Analysis) :
    (processAnalysis now st a).gazeDirection = (computeFlags st a).2.2 := rfl

/-- One `processAnalysis` step keeps history within the 20-entry cap:
the appended form keeps at most the 19 most recent old entries plus the new
one. -/
theorem history_step_le (now : ℚ) (st : FlagState) (a : Analysis)
    (h : st.history.length ≤ 20) :
    (processAnalysis now st a).history.length ≤ 20 := by
  simp only [processAnalysis]
  split
  · simp only [List.length_append, List.length_drop, List.length_cons,
      List.length_nil]
    omega
  · exact h

/-- `runAnalyses` preserves the history cap. -/
theorem runAnalyses_history_le (now : ℚ) (samples : List Analysis)
    (st : FlagState) (h : st.history.length ≤ 20) :
    (runAnalyses now st samples).history.length ≤ 20 := by
  induction samples generalizing st with
  | nil => exact h
  | cons a rest ih =>
    exact ih (processAnalysis now st a) (history_step_le now st a h)

/-! ## Claim theorems -/

/-- C7: for every input landmark sequence of length less than 478 (including
null/absent input), `analyzeRotation` returns yaw = UNKNOWN, roll = UNKNOWN,
`isRotated = false`, and `analyzeGaze` returns horizontal, vertical and
combined gaze UNKNOWN, `isLookingAway = false`, `confidence = 0`.  Both
embeddings are total Lean functions, reflecting that the source functions
never raise: every array access on a short array merely yields `undefined`.
-/
theorem short_landmarks_neutral (input : Option Landmarks)
    (h : ∀ lms, input = some lms → lms.length < 478) :
    analyzeRotation input = ⟨"UNKNOWN", "UNKNOWN", false⟩ ∧
      analyzeGaze input = ⟨"UNKNOWN", "UNKNOWN", "UNKNOWN", false, 0⟩ := by
  cases input with
  | none => exact ⟨rfl, rfl⟩
  | some lms =>
    have hlen := h lms rfl
    constructor
    · simp [analyzeRotation, hlen]
    · simp [analyzeGaze, hlen]

/-- Witness for C7 at the empty landmark array. -/
theorem short_landmarks_neutral_witness :
    analyzeRotation (some []) = ⟨"UNKNOWN", "UNKNOWN", false⟩ ∧
      analyzeGaze (some []) = ⟨"UNKNOWN", "UNKNOWN", "UNKNOWN", false, 0⟩ :=
  short_landmarks_neutral (some [])
    (by intro lms hl; cases hl; decide)

/-- C9: `processAnalysis` appends `LOW_LIGHT` to the new flag set exactly
when `brightness < 50`, for every state and sample and independently of the
face-presence branch; in particular brightness exactly 50 does not produce
`LOW_LIGHT`. -/
theorem low_light_iff (now : ℚ) (st : FlagState) (a : Analysis) :
    ("LOW_LIGHT" ∈ (processAnalysis now st a).currentFlags ↔
        a.brightness < 50) ∧
      (a.brightness = 50 →
        "LOW_LIGHT" ∉ (processAnalysis now st a).currentFlags) := by
  have hmem : "LOW_LIGHT" ∈ (processAnalysis now st a).currentFlags ↔
      a.brightness < 50 := by
    rw [processAnalysis_currentFlags, computeFlags_fst]
    split_ifs with h1 h2 h3 h4 h5 <;> simp_all
  refine ⟨hmem, fun h50 hmem' => ?_⟩
  rw [hmem] at hmem'
  rw [h50] at hmem'
  exact absurd hmem' (lt_irrefl 50)

/-- Witness for C9 at brightness exactly 50 with one face present. -/
theorem low_light_iff_witness :
    ("LOW_LIGHT" ∈
          (processAnalysis 0 createInitialState ⟨1, false, false, none, 50⟩).currentFlags ↔
        (50 : ℚ) < 50) ∧
      ((50 : ℚ) = 50 →
        "LOW_LIGHT" ∉
          (processAnalysis 0 createInitialState ⟨1, false, false, none, 50⟩).currentFlags) :=
  low_light_iff 0 createInitialState ⟨1, false, false, none, 50⟩

/-- C4: feeding face counts `[1,1,0,0,0,1]` through `processAnalysis` from
the initial state, `FACE_MISSING` is absent after the first and second
zero-count samples, present after the third, and `consecutiveMissing` is 0
again after the final count of 1; in general a zero face count increments
`consecutiveMissing` and flags `FACE_MISSING` exactly when the incremented
counter has reached 3. -/
theorem face_missing_debounce :
    ("FACE_MISSING" ∉
        (runAnalyses 0 createInitialState ([1, 1, 0].map mkA)).currentFlags ∧
      "FACE_MISSING" ∉
        (runAnalyses 0 createInitialState ([1, 1, 0, 0].map mkA)).currentFlags ∧
      "FACE_MISSING" ∈
        (runAnalyses 0 createInitialState ([1, 1, 0, 0, 0].map mkA)).currentFlags ∧
      (runAnalyses 0 createInitialState
          ([1, 1, 0, 0, 0, 1].map mkA)).consecutiveMissing = 0) ∧
    ∀ (now : ℚ) (st : FlagState) (a : Analysis), a.faceCount = 0 →
      (processAnalysis now st a).consecutiveMissing =
          st.consecutiveMissing + 1 ∧
        ("FACE_MISSING" ∈ (processAnalysis now st a).currentFlags ↔
          3 ≤ st.consecutiveMissing + 1) := by
  constructor
  · refine ⟨by decide, by decide, by decide, by decide⟩
  · intro now st a hfc
    have h1 : ¬1 < a.faceCount := by omega
    constructor
    · rw [processAnalysis_cm, computeFlags_cm]
      simp [hfc, h1]
    · rw [processAnalysis_currentFlags, computeFlags_fst]
      simp only [hfc, h1, if_true, if_false, if_neg h1, if_pos rfl]
      split_ifs <;> simp_all

/-- Witness for C4: a third consecutive zero-count sample flags
`FACE_MISSING`. -/
theorem face_missing_debounce_witness :
    (processAnalysis 0
          { createInitialState with consecutiveMissing := 2 }
          (mkA 0)).consecutiveMissing = 2 + 1 ∧
      ("FACE_MISSING" ∈
          (processAnalysis 0
            { createInitialState with consecutiveMissing := 2 }
            (mkA 0)).currentFlags ↔ 3 ≤ 2 + 1) :=
  face_missing_debounce.2 0
    { createInitialState with consecutiveMissing := 2 } (mkA 0) (by decide)

/-- C10 (implicit): for every state and sample the returned `currentFlags`
holds at most one status flag (from `MULTIPLE_FACES`, `FACE_MISSING`,
`FACE_ROTATED`, `GAZE_AWAY`, `FACE_OK`) plus optionally `LOW_LIGHT` — so at
most two flags total — and it is empty exactly when the face count is 0, the
incremented missing counter is still below 3 and brightness is at least 50.
-/
theorem flags_shape_invariant (now : ℚ) (st : FlagState) (a : Analysis) :
    (((processAnalysis now st a).currentFlags.filter
            (fun f => f ∈ statusFlags)).length ≤ 1 ∧
        (processAnalysis now st a).currentFlags.length ≤ 2) ∧
      ((processAnalysis now st a).currentFlags = [] ↔
        a.faceCount = 0 ∧ st.consecutiveMissing + 1 < 3 ∧
          50 ≤ a.brightness) := by
  rw [processAnalysis_currentFlags, computeFlags_fst]
  constructor
  · constructor
    · split_ifs <;> simp [statusFlags]
    · split_ifs <;> simp
  · split_ifs with h1 h2 h3 h4 h5 <;> simp_all <;> omega

/-- C5: across any sample sequence from the initial state the history never
exceeds 20 entries, a step either leaves history unchanged or appends one
entry after keeping only the 19 most recent old entries (oldest evicted
first), and a call whose computed flag set equals the previous
`currentFlags` as an unordered set — with the stored gaze direction unchanged
whenever the sample says the user is looking away — appends no new history
entry. -/
theorem history_bound_no_dup_append (now : ℚ) :
    (∀ samples : List Analysis,
        (runAnalyses now createInitialState samples).history.length ≤ 20) ∧
      (∀ (st : FlagState) (a : Analysis),
        (processAnalysis now st a).history = st.history ∨
          (processAnalysis now st a).history =
            st.history.drop (st.history.length - 19) ++
              [⟨now, (processAnalysis now st a).currentFlags, mkDetails a⟩]) ∧
      ∀ (st : FlagState) (a : Analysis),
        (processAnalysis now st a).currentFlags.Perm st.currentFlags →
        (a.isLookingAway = true →
          st.gazeDirection = (processAnalysis now st a).gazeDirection) →
        (processAnalysis now st a).history = st.history := by
  refine ⟨fun samples => runAnalyses_history_le now samples _ (by decide),
    fun st a => ?_, fun st a hperm hgaze => ?_⟩
  · simp only [processAnalysis]
    split
    · right; rfl
    · left; rfl
  · have heq : arraysEqual st.currentFlags (computeFlags st a).1 = true :=
      arraysEqual_of_perm (hperm.symm)
    have hg : (a.isLookingAway &&
        decide (st.gazeDirection ≠ (computeFlags st a).2.2)) = false := by
      cases hl : a.isLookingAway with
      | false => rfl
      | true =>
        have := hgaze (by rw [hl])
        rw [processAnalysis_gaze] at this
        simp [this]
    simp only [processAnalysis, heq, hg, Bool.not_true, Bool.or_false,
      if_neg, Bool.false_eq_true, not_false_eq_true]

/-- Witness for C5: a repeated `FACE_OK` sample appends nothing. -/
theorem history_bound_no_dup_append_witness :
    (processAnalysis 0
        { createInitialState with currentFlags := ["FACE_OK"] }
        (mkA 1)).history =
      ({ createInitialState with currentFlags := ["FACE_OK"] } :
        FlagState).history :=
  (history_bound_no_dup_append 0).2.2
    { createInitialState with currentFlags := ["FACE_OK"] } (mkA 1)
    (by decide) (by decide)

/-- C2: starting from a running, idle scheduler with a clean overrun streak,
three consecutive completed cycles each exceeding the 200 ms budget cause —
on the third cycle — a transition to the disabled state: the interval timer
is cleared, `isDisabled` is set, the only event emitted is the disabled
event with its reason string (no analysis event for that cycle), every
subsequent invocation of `processFrame` is a no-op, and only `start()`
clears the disabled flag again.  The first two cycles complete normally and
emit their analysis events. -/
theorem three_overruns_disable (st : ProcState)
    (r1 r2 r3 : Option (List Landmarks)) (d1 d2 d3 : List ℚ)
    (e1 e2 e3 : ℚ) (hP : st.isProcessing = false)
    (hD : st.isDisabled = false) (hO : st.consecutiveOverruns = 0)
    (h1 : MAX_PROCESSING_MS < e1) (h2 : MAX_PROCESSING_MS < e2)
    (h3 : MAX_PROCESSING_MS < e3) :
    ∃ s1 s2 : ProcState,
      processFrame st true (.ok r1) d1 e1 =
          (s1, [Event.analysis
            ⟨(detectFacesResult r1).count, calculateBrightness d1, e1⟩]) ∧
        s1.isDisabled = false ∧
        processFrame s1 true (.ok r2) d2 e2 =
          (s2, [Event.analysis
            ⟨(detectFacesResult r2).count, calculateBrightness d2, e2⟩]) ∧
        s2.isDisabled = false ∧
        (processFrame s2 true (.ok r3) d3 e3).2 =
          [Event.disabled "Processing time exceeded budget"] ∧
        (processFrame s2 true (.ok r3) d3 e3).1.isDisabled = true ∧
        (processFrame s2 true (.ok r3) d3 e3).1.intervalRunning = false ∧
        (∀ (ready : Bool) (outcome : DetectOutcome) (data : List ℚ)
            (elapsed : ℚ),
          processFrame (processFrame s2 true (.ok r3) d3 e3).1 ready outcome
              data elapsed =
            ((processFrame s2 true (.ok r3) d3 e3).1, [])) ∧
        (schedStart (processFrame s2 true (.ok r3) d3 e3).1).isDisabled =
          false := by
  have hs1 : processFrame st true (.ok r1) d1 e1 =
      ({ st with consecutiveOverruns := 1, isProcessing := false },
        [Event.analysis
          ⟨(detectFacesResult r1).count, calculateBrightness d1, e1⟩]) := by
    simp [processFrame, hP, hD, hO, h1, MAX_CONSECUTIVE_OVERRUNS]
  have hs2 : processFrame
      ({ st with consecutiveOverruns := 1, isProcessing := false }) true
      (.ok r2) d2 e2 =
      ({ st with consecutiveOverruns := 2, isProcessing := false },
        [Event.analysis
          ⟨(detectFacesResult r2).count, calculateBrightness d2, e2⟩]) := by
    simp [processFrame, hD, h2, MAX_CONSECUTIVE_OVERRUNS]
  have hs3 : processFrame
      ({ st with consecutiveOverruns := 2, isProcessing := false }) true
      (.ok r3) d3 e3 =
      ({ st with
          intervalRunning := false
          isProcessing := false
          consecutiveOverruns := 3
          isDisabled := true },
        [Event.disabled "Processing time exceeded budget"]) := by
    simp [processFrame, hD, h3, MAX_CONSECUTIVE_OVERRUNS]
  refine ⟨_, _, hs1, hD, hs2, hD, ?_, ?_, ?_, ?_, ?_⟩
  · rw [hs3]
  · rw [hs3]
  · rw [hs3]
  · intro ready outcome data elapsed
    rw [hs3]
    simp [processFrame]
  · rw [hs3]
    simp [schedStart]

/-- Witness for C2: three 300 ms cycles from a fresh running state disable
the scheduler. -/
theorem three_overruns_disable_witness :
    ∃ s1 s2 : ProcState,
      processFrame procSt0 true (.ok none) [] 300 =
          (s1, [Event.analysis
            ⟨(detectFacesResult none).count, calculateBrightness [], 300⟩]) ∧
        s1.isDisabled = false ∧
        processFrame s1 true (.ok none) [] 300 =
          (s2, [Event.analysis
            ⟨(detectFacesResult none).count, calculateBrightness [], 300⟩]) ∧
        s2.isDisabled = false ∧
        (processFrame s2 true (.ok none) [] 300).2 =
          [Event.disabled "Processing time exceeded budget"] ∧
        (processFrame s2 true (.ok none) [] 300).1.isDisabled = true ∧
        (processFrame s2 true (.ok none) [] 300).1.intervalRunning = false ∧
        (∀ (ready : Bool) (outcome : DetectOutcome) (data : List ℚ)
            (elapsed : ℚ),
          processFrame (processFrame s2 true (.ok none) [] 300).1 ready
              outcome data elapsed =
            ((processFrame s2 true (.ok none) [] 300).1, [])) ∧
        (schedStart (processFrame s2 true (.ok none) [] 300).1).isDisabled =
          false :=
  three_overruns_disable procSt0 none none none [] [] [] 300 300 300
    (by decide) (by decide) (by decide) (by decide) (by decide) (by decide)

/-- C3: a cycle in which frame capture or the detector invocation raises is
aborted with exactly one error event carrying the cause — no analysis event
— the `consecutiveOverruns` counter is untouched, and `isProcessing` ends
false. -/
theorem error_cycle_orthogonal (st : ProcState) (cause : String)
    (data : List ℚ) (elapsed : ℚ) (hP : st.isProcessing = false)
    (hD : st.isDisabled = false) :
    processFrame st true (.err cause) data elapsed =
        ({ st with isProcessing := false }, [Event.error cause]) ∧
      (processFrame st true (.err cause) data elapsed).1.consecutiveOverruns =
        st.consecutiveOverruns ∧
      (processFrame st true (.err cause) data elapsed).1.isProcessing =
        false ∧
      ∀ s : Sample,
        Event.analysis s ∉ (processFrame st true (.err cause) data elapsed).2 := by
  have h : processFrame st true (.err cause) data elapsed =
      ({ st with isProcessing := false }, [Event.error cause]) := by
    simp [processFrame, hP, hD]
  refine ⟨h, ?_, ?_, ?_⟩
  · rw [h]
  · rw [h]
  · intro s
    rw [h]
    simp

/-- Witness for C3 at a concrete running state and cause. -/
theorem error_cycle_orthogonal_witness :
    processFrame procSt0 true (.err "detector failed") [] 10 =
        ({ procSt0 with isProcessing := false },
          [Event.error "detector failed"]) ∧
      (processFrame procSt0 true
          (.err "detector failed") [] 10).1.consecutiveOverruns =
        procSt0.consecutiveOverruns ∧
      (processFrame procSt0 true
          (.err "detector failed") [] 10).1.isProcessing = false ∧
      ∀ s : Sample,
        Event.analysis s ∉
          (processFrame procSt0 true (.err "detector failed") [] 10).2 :=
  error_cycle_orthogonal procSt0 "detector failed" [] 10 (by decide)
    (by decide)

/-- C1 (amended): every analysis event emitted by the frame scheduler
carries a `Sample` with exactly the fields `faceCount` (the detector
adapter's face count for that cycle), `brightness` (the strided luma
average of that cycle's frame) and `processingTime` (the measured elapsed
time); an error cycle emits no analysis event.  The scheduler does not run
the geometry estimators, and the sample carries no
`isRotated`/`isLookingAway`/`gazeDirection` fields. -/
theorem analysis_payload (st : ProcState) (ready : Bool)
    (data : List ℚ) (elapsed : ℚ) (s : Sample) :
    (∀ raw : Option (List Landmarks),
        Event.analysis s ∈ (processFrame st ready (.ok raw) data elapsed).2 →
        s = ⟨(detectFacesResult raw).count, calculateBrightness data,
          elapsed⟩) ∧
      ∀ cause : String,
        Event.analysis s ∉ (processFrame st ready (.err cause) data elapsed).2 := by
  constructor
  · intro raw h
    unfold processFrame at h
    split at h
    · simp at h
    · split at h
      · simp at h
      · dsimp only at h
        split at h
        · split at h
          · simp at h
          · simp only [List.mem_singleton, Event.analysis.injEq] at h
            exact h
        · simp only [List.mem_singleton, Event.analysis.injEq] at h
          exact h
  · intro cause h
    unfold processFrame at h
    split at h
    · simp at h
    · split at h
      · simp at h
      · simp at h

set_option maxRecDepth 10000

/-- Witness for C1's amended theorem: a concrete on-budget cycle whose
analysis event is the three-field sample. -/
theorem analysis_payload_witness :
    Event.analysis
        (⟨(detectFacesResult (some [rotLms])).count, calculateBrightness [],
          10⟩ : Sample) ∈
        (processFrame procSt0 true (.ok (some [rotLms])) [] 10).2 ∧
      (⟨(detectFacesResult (some [rotLms])).count, calculateBrightness [],
          10⟩ : Sample) =
        ⟨(detectFacesResult (some [rotLms])).count, calculateBrightness [],
          10⟩ :=
  ⟨by decide,
    (analysis_payload procSt0 true [] 10 _).1 (some [rotLms]) (by decide)⟩

/-- C1 counterexample: the scheduler's emitted analysis event is identical
for two detector results whose landmark geometry differs — one face turned
left (`isRotated = true` per the rotation estimator), one straight — so the
event cannot carry `isRotated`, `isLookingAway` or `gazeDirection` computed
from that cycle's landmarks; its payload is exactly
`{faceCount, brightness, processingTime}`. -/
theorem analysis_ignores_geometry_cex :
    (analyzeRotation (some rotLms)).isRotated = true ∧
      (analyzeRotation (some straightLms)).isRotated = false ∧
      processFrame procSt0 true (.ok (some [rotLms])) [] 10 =
        processFrame procSt0 true (.ok (some [straightLms])) [] 10 ∧
      (processFrame procSt0 true (.ok (some [rotLms])) [] 10).2 =
        [Event.analysis ⟨1, 0, 10⟩] := by
  have hA : processFrame procSt0 true (.ok (some [rotLms])) [] 10 =
      (⟨true, false, 0, false⟩, [Event.analysis ⟨1, 0, 10⟩]) := by
    refine Prod.ext ?_ ?_ <;> decide
  have hB : processFrame procSt0 true (.ok (some [straightLms])) [] 10 =
      (⟨true, false, 0, false⟩, [Event.analysis ⟨1, 0, 10⟩]) := by
    refine Prod.ext ?_ ?_ <;> decide
  refine ⟨?_, ?_, by rw [hA, hB], by rw [hA]⟩
  · rw [analyzeRotation_rotLms]
  · rw [analyzeRotation_straightLms]

/-- Strictly monotone square root: a ratio of square roots is below a
positive bound exactly when the ratio of the radicands is below its square.
This is the bridge between the source's `Math.sqrt`-based distances and the
squared distances carried by the embedding. -/
theorem sqrt_div_lt_iff (a b c : ℝ) (ha : 0 ≤ a) (hc : 0 < c) :
    Real.sqrt a / Real.sqrt b < c ↔ a / b < c ^ 2 := by
  rw [← Real.sqrt_div ha b, Real.sqrt_lt' hc]

/-- Companion bound in the other direction. -/
theorem lt_sqrt_div_iff (a b c : ℝ) (ha : 0 ≤ a) (hc : 0 ≤ c) :
    c < Real.sqrt a / Real.sqrt b ↔ c ^ 2 < a / b := by
  rw [← Real.sqrt_div ha b, Real.lt_sqrt hc]

/-- For a full landmark array, `analyzeRotation` reports the yaw estimator's
verdict. -/
theorem analyzeRotation_yaw (lms : Landmarks) (h : ¬lms.length < 478) :
    (analyzeRotation (some lms)).yaw = estimateYaw lms := by
  rw [analyzeRotation, if_neg h]

/-- The spec's example face (`exampleLms`) classifies yaw LEFT. -/
theorem analyzeRotation_exampleLms :
    (analyzeRotation (some exampleLms)).yaw = "LEFT" := by
  have h1 : lmGet exampleLms 1 = some ⟨0, 0⟩ := by
    rw [exampleLms, lmGet_ofFn exampleFn 1 (by norm_num)]; rfl
  have h454 : lmGet exampleLms 454 = some ⟨0, 100⟩ := by
    rw [exampleLms, lmGet_ofFn exampleFn 454 (by norm_num)]; rfl
  have h234 : lmGet exampleLms 234 = some ⟨0, 40⟩ := by
    rw [exampleLms, lmGet_ofFn exampleFn 234 (by norm_num)]; rfl
  have hlen : ¬(exampleLms.length < 478) := by
    rw [exampleLms, length_ofFn_478]; omega
  rw [analyzeRotation_yaw exampleLms hlen, estimateYaw, h1, h454, h234]
  norm_num [distanceSq]

/-- C6: for every full 478-landmark array, yaw is classified from the ratio
`distance(nose, rightEar) / distance(nose, leftEar)` with strict thresholds
— below `3/5` LEFT, above `5/3` RIGHT, otherwise CENTER — a missing nose or
ear landmark or a zero distance gives CENTER, `isRotated` holds exactly when
yaw is not CENTER, the spec's 40/100 example classifies LEFT, and the
boundary face with ratio exactly `3/5` classifies CENTER. -/
theorem yaw_classification :
    (∀ lms : Landmarks, ¬lms.length < 478 →
      ((analyzeRotation (some lms)).isRotated = true ↔
        (analyzeRotation (some lms)).yaw ≠ "CENTER")) ∧
    (∀ lms : Landmarks, ¬lms.length < 478 →
      (lmGet lms 1 = none ∨ lmGet lms 454 = none ∨ lmGet lms 234 = none ∨
        distanceSq (lmGet lms 1) (lmGet lms 454) = 0 ∨
        distanceSq (lmGet lms 1) (lmGet lms 234) = 0) →
      (analyzeRotation (some lms)).yaw = "CENTER") ∧
    (∀ lms : Landmarks, ¬lms.length < 478 →
      ∀ nose leftEar rightEar : Pt,
        lmGet lms 1 = some nose → lmGet lms 454 = some leftEar →
        lmGet lms 234 = some rightEar →
        distanceSq (some nose) (some leftEar) ≠ 0 →
        distanceSq (some nose) (some rightEar) ≠ 0 →
        (((analyzeRotation (some lms)).yaw = "LEFT" ↔
            Real.sqrt (distanceSq (some nose) (some rightEar) : ℝ) /
                Real.sqrt (distanceSq (some nose) (some leftEar) : ℝ) <
              3 / 5) ∧
          ((analyzeRotation (some lms)).yaw = "RIGHT" ↔
            5 / 3 <
              Real.sqrt (distanceSq (some nose) (some rightEar) : ℝ) /
                Real.sqrt (distanceSq (some nose) (some leftEar) : ℝ)) ∧
          ((analyzeRotation (some lms)).yaw = "CENTER" ↔
            (¬Real.sqrt (distanceSq (some nose) (some rightEar) : ℝ) /
                  Real.sqrt (distanceSq (some nose) (some leftEar) : ℝ) <
                3 / 5 ∧
              ¬5 / 3 <
                Real.sqrt (distanceSq (some nose) (some rightEar) : ℝ) /
                  Real.sqrt (distanceSq (some nose) (some leftEar) : ℝ))))) ∧
    (analyzeRotation (some exampleLms)).yaw = "LEFT" ∧
    Real.sqrt (distanceSq (lmGet exampleLms 1) (lmGet exampleLms 234) : ℝ) =
      40 ∧
    Real.sqrt (distanceSq (lmGet exampleLms 1) (lmGet exampleLms 454) : ℝ) =
      100 ∧
    (analyzeRotation (some straightLms)).yaw = "CENTER" ∧
    Real.sqrt (distanceSq (lmGet straightLms 1) (lmGet straightLms 234) : ℝ) /
        Real.sqrt
          (distanceSq (lmGet straightLms 1) (lmGet straightLms 454) : ℝ) =
      3 / 5 := by
  refine ⟨?_, ?_, ?_, analyzeRotation_exampleLms, ?_, ?_, ?_, ?_⟩
  · intro lms h
    rw [analyzeRotation, if_neg h]
    simp [bne_iff_ne]
  · intro lms h hc
    rw [analyzeRotation_yaw lms h, estimateYaw]
    rcases e1 : lmGet lms 1 with _ | nose <;>
      rcases e454 : lmGet lms 454 with _ | leftEar <;>
        rcases e234 : lmGet lms 234 with _ | rightEar <;>
      simp only [] <;> try rfl
    rcases hc with hc | hc | hc | hc | hc
    · rw [e1] at hc; cases hc
    · rw [e454] at hc; cases hc
    · rw [e234] at hc; cases hc
    · rw [e1, e454] at hc
      rw [if_pos (Or.inl hc)]
    · rw [e1, e234] at hc
      rw [if_pos (Or.inr hc)]
  · intro lms h nose leftEar rightEar h1 h454 h234 hL hR
    have hyaw := analyzeRotation_yaw lms h
    have hEst : estimateYaw lms =
        if distanceSq (some nose) (some rightEar) /
            distanceSq (some nose) (some leftEar) < 9 / 25 then "LEFT"
        else if 25 / 9 < distanceSq (some nose) (some rightEar) /
            distanceSq (some nose) (some leftEar) then "RIGHT"
        else "CENTER" := by
      rw [estimateYaw, h1, h454, h234]
      simp only []
      rw [if_neg (not_or.mpr ⟨hL, hR⟩)]
    have hcastL : Real.sqrt (distanceSq (some nose) (some rightEar) : ℝ) /
          Real.sqrt (distanceSq (some nose) (some leftEar) : ℝ) < 3 / 5 ↔
        distanceSq (some nose) (some rightEar) /
          distanceSq (some nose) (some leftEar) < 9 / 25 := by
      rw [sqrt_div_lt_iff _ _ _
        (by exact_mod_cast distanceSq_nonneg (some nose) (some rightEar))
        (by norm_num)]
      rw [show ((3 : ℝ) / 5) ^ 2 = (((9 : ℚ) / 25 : ℚ) : ℝ) by norm_num]
      rw [show ((distanceSq (some nose) (some rightEar) : ℝ) /
          (distanceSq (some nose) (some leftEar) : ℝ)) =
          ((distanceSq (some nose) (some rightEar) /
            distanceSq (some nose) (some leftEar) : ℚ) : ℝ) by push_cast; ring]
      exact_mod_cast Iff.rfl
    have hcastR : (5 : ℝ) / 3 <
          Real.sqrt (distanceSq (some nose) (some rightEar) : ℝ) /
            Real.sqrt (distanceSq (some nose) (some leftEar) : ℝ) ↔
        (25 : ℚ) / 9 < distanceSq (some nose) (some rightEar) /
          distanceSq (some nose) (some leftEar) := by
      rw [lt_sqrt_div_iff _ _ _
        (by exact_mod_cast distanceSq_nonneg (some nose) (some rightEar))
        (by norm_num)]
      rw [show ((5 : ℝ) / 3) ^ 2 = (((25 : ℚ) / 9 : ℚ) : ℝ) by norm_num]
      rw [show ((distanceSq (some nose) (some rightEar) : ℝ) /
          (distanceSq (some nose) (some leftEar) : ℝ)) =
          ((distanceSq (some nose) (some rightEar) /
            distanceSq (some nose) (some leftEar) : ℚ) : ℝ) by push_cast; ring]
      exact_mod_cast Iff.rfl
    rw [hyaw, hEst, hcastL, hcastR]
    split_ifs with hA hB <;> refine ⟨?_, ?_, ?_⟩ <;>
      simp_all <;> linarith
  · have h1 : lmGet exampleLms 1 = some ⟨0, 0⟩ := by
      rw [exampleLms, lmGet_ofFn exampleFn 1 (by norm_num)]; rfl
    have h234 : lmGet exampleLms 234 = some ⟨0, 40⟩ := by
      rw [exampleLms, lmGet_ofFn exampleFn 234 (by norm_num)]; rfl
    rw [h1, h234]
    rw [show ((distanceSq (some ⟨0, 0⟩) (some ⟨0, 40⟩) : ℚ) : ℝ) = 40 ^ 2 by
      norm_num [distanceSq]]
    exact Real.sqrt_sq (by norm_num)
  · have h1 : lmGet exampleLms 1 = some ⟨0, 0⟩ := by
      rw [exampleLms, lmGet_ofFn exampleFn 1 (by norm_num)]; rfl
    have h454 : lmGet exampleLms 454 = some ⟨0, 100⟩ := by
      rw [exampleLms, lmGet_ofFn exampleFn 454 (by norm_num)]; rfl
    rw [h1, h454]
    rw [show ((distanceSq (some ⟨0, 0⟩) (some ⟨0, 100⟩) : ℚ) : ℝ) = 100 ^ 2 by
      norm_num [distanceSq]]
    exact Real.sqrt_sq (by norm_num)
  · rw [analyzeRotation_straightLms]
  · have h1 : lmGet straightLms 1 = some ⟨0, 0⟩ := by
      rw [straightLms, lmGet_ofFn straightFn 1 (by norm_num)]; rfl
    have h234 : lmGet straightLms 234 = some ⟨3, 0⟩ := by
      rw [straightLms, lmGet_ofFn straightFn 234 (by norm_num)]; rfl
    have h454 : lmGet straightLms 454 = some ⟨5, 0⟩ := by
      rw [straightLms, lmGet_ofFn straightFn 454 (by norm_num)]; rfl
    rw [h1, h234, h454]
    rw [show ((distanceSq (some ⟨0, 0⟩) (some ⟨3, 0⟩) : ℚ) : ℝ) = 3 ^ 2 by
      norm_num [distanceSq]]
    rw [show ((distanceSq (some ⟨0, 0⟩) (some ⟨5, 0⟩) : ℚ) : ℝ) = 5 ^ 2 by
      norm_num [distanceSq]]
    rw [Real.sqrt_sq (by norm_num : (0:ℝ) ≤ 3),
      Real.sqrt_sq (by norm_num : (0:ℝ) ≤ 5)]

/-- Witness for C6: the general parts instantiated at the 40/100 example
face and at an array whose nose and ear coincide. -/
theorem yaw_classification_witness :
    ((analyzeRotation (some exampleLms)).isRotated = true ↔
      (analyzeRotation (some exampleLms)).yaw ≠ "CENTER") ∧
    (analyzeRotation (some gazeLms)).yaw = "CENTER" ∧
    ((analyzeRotation (some exampleLms)).yaw = "LEFT" ↔
      Real.sqrt (distanceSq (some ⟨0, 0⟩) (some ⟨0, 40⟩) : ℝ) /
          Real.sqrt (distanceSq (some ⟨0, 0⟩) (some ⟨0, 100⟩) : ℝ) <
        3 / 5) := by
  have hlenE : ¬(exampleLms.length < 478) := by
    rw [exampleLms, length_ofFn_478]; omega
  have hlenG : ¬(gazeLms.length < 478) := by
    rw [gazeLms, length_ofFn_478]; omega
  refine ⟨yaw_classification.1 exampleLms hlenE, ?_, ?_⟩
  · refine yaw_classification.2.1 gazeLms hlenG
      (Or.inr (Or.inr (Or.inr (Or.inl ?_))))
    have h1 : lmGet gazeLms 1 = some ⟨0, 0⟩ := by
      rw [gazeLms, lmGet_ofFn gazeFn 1 (by norm_num)]; rfl
    have h454 : lmGet gazeLms 454 = some ⟨0, 0⟩ := by
      rw [gazeLms, lmGet_ofFn gazeFn 454 (by norm_num)]; rfl
    rw [h1, h454]
    norm_num [distanceSq]
  · exact (yaw_classification.2.2.1 exampleLms hlenE ⟨0, 0⟩ ⟨0, 100⟩ ⟨0, 40⟩
      (by rw [exampleLms, lmGet_ofFn exampleFn 1 (by norm_num)]; rfl)
      (by rw [exampleLms, lmGet_ofFn exampleFn 454 (by norm_num)]; rfl)
      (by rw [exampleLms, lmGet_ofFn exampleFn 234 (by norm_num)]; rfl)
      (by norm_num [distanceSq])
      (by norm_num [distanceSq])).1

/-- Joining one direction label leaves it unchanged. -/
theorem intercalate_single (a : String) : String.intercalate "_" [a] = a := by
  simp [String.intercalate, String.intercalate.go]

/-- Joining two direction labels puts an underscore between them. -/
theorem intercalate_pair (a b : String) :
    String.intercalate "_" [a, b] = a ++ "_" ++ b := by
  simp [String.intercalate, String.intercalate.go]

/-- Field-level view of `analyzeGaze` on a full landmark array. -/
theorem analyzeGaze_fields (lms : Landmarks) (h : ¬lms.length < 478) :
    (analyzeGaze (some lms)).horizontalGaze = horizontalGazeOf lms ∧
      (analyzeGaze (some lms)).verticalGaze = verticalGazeOf lms ∧
      (analyzeGaze (some lms)).gazeDirection = gazeDirectionOf lms ∧
      (analyzeGaze (some lms)).isLookingAway =
        (horizontalGazeOf lms != "CENTER" ||
          verticalGazeOf lms != "CENTER") := by
  simp only [analyzeGaze, if_neg h]
  exact ⟨trivial, trivial, trivial, trivial⟩

/-- The validity bit of a per-eye vertical reading, characterized:
with all three landmarks present it holds exactly when the eye opening is at
least `0.02` of the eye width (vacuously when the width is not positive,
mirroring the source's `eyeWidth > 0 &&` guard). -/
theorem getVerticalOffset_valid (i t b : Pt) (w : ℚ) :
    (getVerticalOffset (some i) (some t) (some b) w).2 = true ↔
      (0 < w → 1 / 50 ≤ |b.y - t.y| / w) := by
  rw [getVerticalOffset]
  split_ifs with hcond
  · exact iff_of_false (by simp)
      (fun hP => absurd (hP hcond.1) (not_le.mpr hcond.2))
  · exact iff_of_true rfl
      (fun hw => le_of_not_lt (fun hlt => hcond ⟨hw, hlt⟩))

/-- The horizontal gaze label is one of LEFT, RIGHT, CENTER. -/
theorem horizontalGazeOf_cases (lms : Landmarks) :
    horizontalGazeOf lms = "LEFT" ∨ horizontalGazeOf lms = "RIGHT" ∨
      horizontalGazeOf lms = "CENTER" := by
  unfold horizontalGazeOf
  split_ifs <;> simp

/-- The vertical gaze label is one of UP, DOWN, CENTER. -/
theorem verticalGazeOf_cases (lms : Landmarks) :
    verticalGazeOf lms = "UP" ∨ verticalGazeOf lms = "DOWN" ∨
      verticalGazeOf lms = "CENTER" := by
  unfold verticalGazeOf
  split_ifs <;> simp

/-- C8: for every full 478-landmark array, a per-eye vertical reading is
valid exactly when the eye opening height is at least `0.02` of the eye
width (given present landmarks and a positive width; missing landmarks are
invalid); the averaged vertical offset is consulted only when both eyes are
valid and otherwise `verticalGaze` is CENTER; with both eyes valid,
`avgVertical < -0.25` gives UP and `avgVertical > 0.25` gives DOWN;
`gazeDirection` joins the non-center vertical then horizontal labels with an
underscore (CENTER when both are center); and `isLookingAway` holds exactly
when the horizontal or the vertical gaze is not CENTER. -/
theorem vertical_gaze_policy :
    (∀ (i t b : Pt) (w : ℚ),
      ((getVerticalOffset (some i) (some t) (some b) w).2 = true ↔
        (0 < w → 1 / 50 ≤ |b.y - t.y| / w)) ∧
      ∀ t' b' : Option Pt, ∀ w' : ℚ,
        (getVerticalOffset none t' b' w').2 = false) ∧
    ∀ lms : Landmarks, ¬lms.length < 478 →
      (verticalValidOf lms = true ↔
        ((rightVert lms).2 = true ∧ (leftVert lms).2 = true)) ∧
      (verticalValidOf lms = false →
        (analyzeGaze (some lms)).verticalGaze = "CENTER") ∧
      (verticalValidOf lms = true →
        (avgVerticalOf lms < -(1 / 4) →
          (analyzeGaze (some lms)).verticalGaze = "UP") ∧
        (1 / 4 < avgVerticalOf lms →
          (analyzeGaze (some lms)).verticalGaze = "DOWN")) ∧
      ((analyzeGaze (some lms)).verticalGaze = "CENTER" →
        (analyzeGaze (some lms)).horizontalGaze = "CENTER" →
        (analyzeGaze (some lms)).gazeDirection = "CENTER") ∧
      ((analyzeGaze (some lms)).verticalGaze = "CENTER" →
        (analyzeGaze (some lms)).horizontalGaze ≠ "CENTER" →
        (analyzeGaze (some lms)).gazeDirection =
          (analyzeGaze (some lms)).horizontalGaze) ∧
      ((analyzeGaze (some lms)).verticalGaze ≠ "CENTER" →
        (analyzeGaze (some lms)).horizontalGaze = "CENTER" →
        (analyzeGaze (some lms)).gazeDirection =
          (analyzeGaze (some lms)).verticalGaze) ∧
      ((analyzeGaze (some lms)).verticalGaze ≠ "CENTER" →
        (analyzeGaze (some lms)).horizontalGaze ≠ "CENTER" →
        (analyzeGaze (some lms)).gazeDirection =
          (analyzeGaze (some lms)).verticalGaze ++ "_" ++
            (analyzeGaze (some lms)).horizontalGaze) ∧
      ((analyzeGaze (some lms)).isLookingAway = true ↔
        ((analyzeGaze (some lms)).horizontalGaze ≠ "CENTER" ∨
          (analyzeGaze (some lms)).verticalGaze ≠ "CENTER")) := by
  constructor
  · intro i t b w
    refine ⟨getVerticalOffset_valid i t b w, fun t' b' w' => ?_⟩
    cases t' <;> cases b' <;> rfl
  · intro lms h
    obtain ⟨hH, hV, hG, hA⟩ := analyzeGaze_fields lms h
    refine ⟨?_, ?_, ?_, ?_, ?_, ?_, ?_, ?_⟩
    · simp [verticalValidOf]
    · intro hval
      rw [hV]
      simp [verticalGazeOf, hval]
    · intro hval
      constructor
      · intro havg
        rw [hV]
        rw [verticalGazeOf, if_pos hval, if_pos havg]
      · intro havg
        rw [hV]
        rw [verticalGazeOf, if_pos hval, if_neg (by linarith), if_pos havg]
    · intro hv hh
      rw [hG, gazeDirectionOf]
      rw [hV] at hv
      rw [hH] at hh
      simp [hv, hh]
    · intro hv hh
      rw [hG, gazeDirectionOf]
      rw [hV] at hv
      rw [hH] at hh
      simp only [hv, hh, ne_eq, not_true_eq_false, if_false,
        not_false_eq_true, if_true, List.nil_append]
      rw [if_neg (by simp), intercalate_single]
      rw [hH]
    · intro hv hh
      rw [hG, gazeDirectionOf]
      rw [hV] at hv
      rw [hH] at hh
      simp only [hv, hh, ne_eq, not_true_eq_false, if_false,
        not_false_eq_true, if_true, List.append_nil]
      rw [if_neg (by simp), intercalate_single]
      rw [hV]
    · intro hv hh
      rw [hG, gazeDirectionOf]
      rw [hV] at hv
      rw [hH] at hh
      simp only [hv, hh, ne_eq, not_false_eq_true, if_true]
      rw [List.singleton_append, if_neg (by simp), intercalate_pair]
      rw [hV, hH]
    · rw [hA, hH, hV]
      simp [Bool.or_eq_true, bne_iff_ne]

/-- The down-left example face: horizontal gaze LEFT. -/
theorem horizontalGazeOf_gazeLms : horizontalGazeOf gazeLms = "LEFT" := by
  have e468 : lmGet gazeLms 468 = some ⟨21/50, 27/50⟩ := by
    rw [gazeLms, lmGet_ofFn gazeFn 468 (by norm_num)]; rfl
  have e473 : lmGet gazeLms 473 = some ⟨21/50, 27/50⟩ := by
    rw [gazeLms, lmGet_ofFn gazeFn 473 (by norm_num)]; rfl
  have e33 : lmGet gazeLms 33 = some ⟨2/5, 1/2⟩ := by
    rw [gazeLms, lmGet_ofFn gazeFn 33 (by norm_num)]; rfl
  have e133 : lmGet gazeLms 133 = some ⟨3/5, 1/2⟩ := by
    rw [gazeLms, lmGet_ofFn gazeFn 133 (by norm_num)]; rfl
  have e263 : lmGet gazeLms 263 = some ⟨2/5, 1/2⟩ := by
    rw [gazeLms, lmGet_ofFn gazeFn 263 (by norm_num)]; rfl
  have e362 : lmGet gazeLms 362 = some ⟨3/5, 1/2⟩ := by
    rw [gazeLms, lmGet_ofFn gazeFn 362 (by norm_num)]; rfl
  rw [horizontalGazeOf, avgHorizontalOf, e468, e473, e33, e133, e263, e362]
  simp only [getHorizontalOffset, getNormalizedOffset]
  norm_num [abs_of_nonneg, min_def, max_def]

/-- The down-left example face: vertical gaze DOWN (both eyes valid). -/
theorem verticalGazeOf_gazeLms : verticalGazeOf gazeLms = "DOWN" := by
  have e468 : lmGet gazeLms 468 = some ⟨21/50, 27/50⟩ := by
    rw [gazeLms, lmGet_ofFn gazeFn 468 (by norm_num)]; rfl
  have e473 : lmGet gazeLms 473 = some ⟨21/50, 27/50⟩ := by
    rw [gazeLms, lmGet_ofFn gazeFn 473 (by norm_num)]; rfl
  have e27 : lmGet gazeLms 27 = some ⟨1/2, 9/20⟩ := by
    rw [gazeLms, lmGet_ofFn gazeFn 27 (by norm_num)]; rfl
  have e23 : lmGet gazeLms 23 = some ⟨1/2, 11/20⟩ := by
    rw [gazeLms, lmGet_ofFn gazeFn 23 (by norm_num)]; rfl
  have e257 : lmGet gazeLms 257 = some ⟨1/2, 9/20⟩ := by
    rw [gazeLms, lmGet_ofFn gazeFn 257 (by norm_num)]; rfl
  have e253 : lmGet gazeLms 253 = some ⟨1/2, 11/20⟩ := by
    rw [gazeLms, lmGet_ofFn gazeFn 253 (by norm_num)]; rfl
  have e33 : lmGet gazeLms 33 = some ⟨2/5, 1/2⟩ := by
    rw [gazeLms, lmGet_ofFn gazeFn 33 (by norm_num)]; rfl
  have e133 : lmGet gazeLms 133 = some ⟨3/5, 1/2⟩ := by
    rw [gazeLms, lmGet_ofFn gazeFn 133 (by norm_num)]; rfl
  have e263 : lmGet gazeLms 263 = some ⟨2/5, 1/2⟩ := by
    rw [gazeLms, lmGet_ofFn gazeFn 263 (by norm_num)]; rfl
  have e362 : lmGet gazeLms 362 = some ⟨3/5, 1/2⟩ := by
    rw [gazeLms, lmGet_ofFn gazeFn 362 (by norm_num)]; rfl
  have hrw : rightEyeWidth gazeLms = 1/5 := by
    rw [rightEyeWidth, e33, e133]
    norm_num [jsX, abs_of_nonpos]
  have hlw : leftEyeWidth gazeLms = 1/5 := by
    rw [leftEyeWidth, e263, e362]
    norm_num [jsX, abs_of_nonpos]
  have hrv : rightVert gazeLms = (4/5, true) := by
    rw [rightVert, e468, e27, e23, hrw, getVerticalOffset]
    rw [if_neg (by norm_num [abs_of_nonneg])]
    rw [getNormalizedOffset]
    norm_num [abs_of_nonneg, min_def, max_def]
  have hlv : leftVert gazeLms = (4/5, true) := by
    rw [leftVert, e473, e257, e253, hlw, getVerticalOffset]
    rw [if_neg (by norm_num [abs_of_nonneg])]
    rw [getNormalizedOffset]
    norm_num [abs_of_nonneg, min_def, max_def]
  have hvalid : verticalValidOf gazeLms = true := by
    rw [verticalValidOf, hrv, hlv]
    rfl
  have havg : avgVerticalOf gazeLms = 4/5 := by
    rw [avgVerticalOf, if_pos hvalid, hrv, hlv]
    norm_num
  rw [verticalGazeOf, if_pos hvalid, havg]
  norm_num

/-- Witness for C8 at the down-left example face: both eyes valid, gaze
DOWN then LEFT joined as `DOWN_LEFT`, looking away. -/
theorem vertical_gaze_policy_witness :
    ((getVerticalOffset (some ⟨21/50, 27/50⟩) (some ⟨1/2, 9/20⟩)
          (some ⟨1/2, 11/20⟩) (1/5)).2 = true ↔
      (0 < (1/5 : ℚ) →
        1 / 50 ≤ |(⟨1/2, 11/20⟩ : Pt).y - (⟨1/2, 9/20⟩ : Pt).y| / (1/5))) ∧
    (analyzeGaze (some gazeLms)).gazeDirection =
      (analyzeGaze (some gazeLms)).verticalGaze ++ "_" ++
        (analyzeGaze (some gazeLms)).horizontalGaze ∧
    ((analyzeGaze (some gazeLms)).isLookingAway = true ↔
      ((analyzeGaze (some gazeLms)).horizontalGaze ≠ "CENTER" ∨
        (analyzeGaze (some gazeLms)).verticalGaze ≠ "CENTER")) := by
  have hlen : ¬(gazeLms.length < 478) := by
    rw [gazeLms, length_ofFn_478]; omega
  obtain ⟨hH, hV, _, _⟩ := analyzeGaze_fields gazeLms hlen
  refine ⟨(vertical_gaze_policy.1 ⟨21/50, 27/50⟩ ⟨1/2, 9/20⟩ ⟨1/2, 11/20⟩
      (1/5)).1,
    (vertical_gaze_policy.2 gazeLms hlen).2.2.2.2.2.2.1 ?_ ?_,
    (vertical_gaze_policy.2 gazeLms hlen).2.2.2.2.2.2.2⟩
  · rw [hV, verticalGazeOf_gazeLms]
    simp
  · rw [hH, horizontalGazeOf_gazeLms]
    simp
